import Mathlib

/-!
Verification of the seras-vpn (taiga protocol) core against its design
specification.

The Go sources embedded here:
* pkg/taiga/msg/msg.go         - typed frames, Encoder/Decoder, key derivation
* internal/node/handler/handler.go - node session manager and dispatch
* internal/kedr (package vpn)  - client run loop and handshake
* internal/kedr/processor      - client-side body processor
* wss server (Connection.Send) - bounded outbound queue

External library calls (golang.org/x/crypto/curve25519,
chacha20poly1305, crypto/sha256, github.com/kelindar/binary) are not part
of the repository; they are modelled from the specification's interface
contract (spec section 4.1 crypto primitives, section 4.2 wire codec):
an abelian one-way key exchange, an AEAD with a 16-byte appended tag that
fails closed, a deterministic length-prefixed binary codec.

32-byte keys, 12-byte nonces and byte strings are modelled as natural
numbers (little-endian value) and lists of naturals.
-/

namespace Seras

/-! ## Crypto primitives (spec section 4.1).
Modelled from the spec: the curve25519 / chacha20poly1305 / sha256
libraries are external to the repository.  X25519 is modelled as scalar
multiplication in a cyclic group written multiplicatively on residues
modulo the curve group order, with the basepoint as a generator. -/

/-- Order of the prime-order subgroup of Curve25519. -/
def curveOrder : Nat := 2 ^ 252 + 27742317777372353535851937790883648493

/-- Modelled from the spec: x25519(scalar, point) -> point, an abelian
one-way function (external library golang.org/x/crypto/curve25519). -/
def x25519 (scalar point : Nat) : Nat := scalar * point % curveOrder

/-- Modelled from the spec: the fixed curve basepoint (generator). -/
def basePoint : Nat := 1

/-- Modelled from the spec: kdf(shared) = SHA256(shared); an arbitrary
fixed executable function standing in for the external sha256. -/
def sha256Nat (s : Nat) : Nat := (s * 2654435761 + 104729) % 2 ^ 256

/-- Modelled from the spec: one keystream byte of the stream cipher at
position i under key k and nonce n. -/
def ksByte (k n i : Nat) : Nat := (k + 131 * n + 251 * i + 7) % 256

/-- Stream-cipher core: xor each byte with the keystream, starting at
keystream position i.  Involutive. -/
def encFrom (k n : Nat) : Nat → List Nat → List Nat
  | _, [] => []
  | i, b :: bs => (b ^^^ ksByte k n i) :: encFrom k n (i + 1) bs

/-- Modelled from the spec: the 16-byte authenticator appended by the
AEAD (poly1305 stand-in), a function of key, nonce and ciphertext. -/
def polyTag (k n : Nat) (ct : List Nat) : List Nat :=
  let h := ct.foldl (fun a b => (a * 257 + b + 1) % 2 ^ 64) ((k + 2 * n + 3) % 2 ^ 64)
  (List.range 16).map (fun i => (h + 37 * i) % 256)

/-- Modelled from the spec: aead_seal(key, nonce, plaintext) with the
16-byte tag appended (chacha20poly1305.Seal). -/
def aeadSeal (k n : Nat) (pt : List Nat) : List Nat :=
  let ct := encFrom k n 0 pt
  ct ++ polyTag k n ct

/-- Modelled from the spec: aead_open(key, nonce, ciphertext); fails
closed (returns none) when the input is shorter than the tag or the
authenticator does not verify (chacha20poly1305.Open). -/
def aeadOpen (k n : Nat) (b : List Nat) : Option (List Nat) :=
  if b.length < 16 then none
  else
    let ct := b.take (b.length - 16)
    let tg := b.drop (b.length - 16)
    if tg = polyTag k n ct then some (encFrom k n 0 ct) else none

/-! ## Data model (pkg/taiga/msg/msg.go). -/

/-- Wire version tag "taiga_v1_alpha" as its ASCII bytes
(msg.go: Version1). -/
def Version1 : List Nat := [116, 97, 105, 103, 97, 95, 118, 49, 95, 97, 108, 112, 104, 97]

/-- Frame type Data = 1 (msg.go: TypeData). -/
def TypeData : Nat := 1

/-- Frame type Handshake = 2 (msg.go: TypeHandshake). -/
def TypeHandshake : Nat := 2

/-- Frame type HandshakeAck = 3 (msg.go: TypeHandshakeAck). -/
def TypeHandshakeAck : Nat := 3

/-- Handshake body: the client announces its public key (msg.go). -/
structure Handshake where
  clientPublicKey : Nat
  deriving DecidableEq

/-- HandshakeAck body: node confirms registration (msg.go). -/
structure HandshakeAck where
  success : Bool
  message : List Nat
  deriving DecidableEq

/-- NextHop: routing to the next node in a circuit (msg.go). -/
structure NextHop where
  publicKey : Nat
  protocol : List Nat
  endpoint : List Nat
  deriving DecidableEq

/-- Msg: decrypted body of a Data frame (msg.go). -/
structure Msg where
  flags : Nat
  timestamp : Int
  nextHop : Option NextHop
  data : List Nat
  deriving DecidableEq

/-- Header: the unencrypted part of a frame (msg.go). -/
structure Header where
  version : List Nat
  type : Nat
  ephemeralKey : Nat
  nonce : Nat
  deriving DecidableEq

/-- RawMsg: the wire format, header plus AEAD ciphertext (msg.go). -/
structure RawMsg where
  header : Header
  body : List Nat
  deriving DecidableEq

/-- CookedMsg: a decrypted message (msg.go). -/
structure CookedMsg where
  header : Header
  body : Msg
  deriving DecidableEq

/-- Encoder: encrypts messages for a recipient public key (msg.go). -/
structure Encoder where
  nodePublicKey : Nat
  version : List Nat
  deriving DecidableEq

/-- Decoder: decrypts received messages with a private key (msg.go). -/
structure Decoder where
  privateKey : Nat
  version : List Nat
  deriving DecidableEq

/-- msg.go: NewEncoder. -/
def NewEncoder (nodePublicKey : Nat) : Encoder :=
  { nodePublicKey := nodePublicKey, version := Version1 }

/-- msg.go: NewDecoder. -/
def NewDecoder (privateKey : Nat) : Decoder :=
  { privateKey := privateKey, version := Version1 }

/-! ## Wire codec (spec section 4.2).
Modelled from the spec: the github.com/kelindar/binary library is
external to the repository.  Contract: fixed-size fields in declaration
order, variable-length fields carry a length prefix, optional fields a
one-byte presence discriminator; decode of malformed length prefixes
fails with a DecodeError. -/

/-- Little-endian encoding of v into w bytes. -/
def toLE : Nat → Nat → List Nat
  | 0, _ => []
  | w + 1, v => v % 256 :: toLE w (v / 256)

/-- Little-endian value of a byte list (each entry reduced mod 256). -/
def fromLE : List Nat → Nat
  | [] => 0
  | b :: bs => b % 256 + 256 * fromLE bs

/-- Signed 64-bit little-endian encoding (two's complement). -/
def i64ToLE (t : Int) : List Nat := toLE 8 (t.emod (2 ^ 64)).toNat

/-- Signed 64-bit little-endian decoding (two's complement). -/
def i64FromLE (bs : List Nat) : Int :=
  if fromLE bs < 2 ^ 63 then (fromLE bs : Int) else (fromLE bs : Int) - 2 ^ 64

/-- Read exactly n bytes from the stream. -/
def readBytes (n : Nat) (bs : List Nat) : Except String (List Nat × List Nat) :=
  if n ≤ bs.length then .ok (bs.take n, bs.drop n)
  else .error "DecodeError: short input"

/-- Read one byte from the stream. -/
def readByte (bs : List Nat) : Except String (Nat × List Nat) :=
  match bs with
  | [] => .error "DecodeError: short input"
  | b :: r => .ok (b, r)

/-- Read a w-byte little-endian unsigned integer. -/
def readLE (w : Nat) (bs : List Nat) : Except String (Nat × List Nat) :=
  match readBytes w bs with
  | .error e => .error e
  | .ok (xs, r) => .ok (fromLE xs, r)

/-- A length-prefixed byte field (4-byte LE length, then the bytes). -/
def writeBlob (xs : List Nat) : List Nat := toLE 4 xs.length ++ xs

/-- Read a length-prefixed byte field. -/
def readBlob (bs : List Nat) : Except String (List Nat × List Nat) :=
  match readLE 4 bs with
  | .error e => .error e
  | .ok (len, r) => readBytes len r

/-- Serialize a NextHop (fields in declaration order). -/
def marshalNextHop (nh : NextHop) : List Nat :=
  toLE 32 nh.publicKey ++ writeBlob nh.protocol ++ writeBlob nh.endpoint

/-- Parse a NextHop. -/
def parseNextHop (bs : List Nat) : Except String (NextHop × List Nat) :=
  match readLE 32 bs with
  | .error e => .error e
  | .ok (pk, r1) =>
    match readBlob r1 with
    | .error e => .error e
    | .ok (pr, r2) =>
      match readBlob r2 with
      | .error e => .error e
      | .ok (ep, r3) => .ok ({ publicKey := pk, protocol := pr, endpoint := ep }, r3)

/-- Serialize a Msg body (flags, timestamp, optional next hop, data). -/
def marshalMsg (m : Msg) : List Nat :=
  toLE 4 m.flags ++ i64ToLE m.timestamp ++
    (match m.nextHop with
     | none => [0]
     | some nh => 1 :: marshalNextHop nh) ++
    writeBlob m.data

/-- Parse a Msg body. -/
def parseMsg (bs : List Nat) : Except String (Msg × List Nat) :=
  match readLE 4 bs with
  | .error e => .error e
  | .ok (fl, r1) =>
    match readBytes 8 r1 with
    | .error e => .error e
    | .ok (tsb, r2) =>
      match readByte r2 with
      | .error e => .error e
      | .ok (0, r3) =>
        match readBlob r3 with
        | .error e => .error e
        | .ok (dat, r4) =>
          .ok ({ flags := fl, timestamp := i64FromLE tsb, nextHop := none, data := dat }, r4)
      | .ok (1, r3) =>
        match parseNextHop r3 with
        | .error e => .error e
        | .ok (nh, r4) =>
          match readBlob r4 with
          | .error e => .error e
          | .ok (dat, r5) =>
            .ok ({ flags := fl, timestamp := i64FromLE tsb, nextHop := some nh, data := dat }, r5)
      | .ok (_, _) => .error "DecodeError: bad option discriminator"

/-- Serialize a Handshake body. -/
def marshalHandshake (hs : Handshake) : List Nat := toLE 32 hs.clientPublicKey

/-- Parse a Handshake body. -/
def parseHandshake (bs : List Nat) : Except String (Handshake × List Nat) :=
  match readLE 32 bs with
  | .error e => .error e
  | .ok (pk, r) => .ok ({ clientPublicKey := pk }, r)

/-- Serialize a HandshakeAck body. -/
def marshalHandshakeAck (a : HandshakeAck) : List Nat :=
  (if a.success then [1] else [0]) ++ writeBlob a.message

/-- Parse a HandshakeAck body. -/
def parseHandshakeAck (bs : List Nat) : Except String (HandshakeAck × List Nat) :=
  match readByte bs with
  | .error e => .error e
  | .ok (0, r1) =>
    match readBlob r1 with
    | .error e => .error e
    | .ok (m, r2) => .ok ({ success := false, message := m }, r2)
  | .ok (1, r1) =>
    match readBlob r1 with
    | .error e => .error e
    | .ok (m, r2) => .ok ({ success := true, message := m }, r2)
  | .ok (_, _) => .error "DecodeError: bad bool"

/-- Serialize a Header (version, type, ephemeral key, nonce). -/
def marshalHeader (h : Header) : List Nat :=
  writeBlob h.version ++ [h.type] ++ toLE 32 h.ephemeralKey ++ toLE 12 h.nonce

/-- Parse a Header. -/
def parseHeader (bs : List Nat) : Except String (Header × List Nat) :=
  match readBlob bs with
  | .error e => .error e
  | .ok (ver, r1) =>
    match readByte r1 with
    | .error e => .error e
    | .ok (ty, r2) =>
      match readLE 32 r2 with
      | .error e => .error e
      | .ok (ek, r3) =>
        match readLE 12 r3 with
        | .error e => .error e
        | .ok (nn, r4) =>
          .ok ({ version := ver, type := ty, ephemeralKey := ek, nonce := nn }, r4)

/-- Serialize a RawMsg (header then length-prefixed body). -/
def marshalRawMsg (r : RawMsg) : List Nat :=
  marshalHeader r.header ++ writeBlob r.body

/-- Parse a RawMsg. -/
def parseRawMsg (bs : List Nat) : Except String (RawMsg × List Nat) :=
  match parseHeader bs with
  | .error e => .error e
  | .ok (hd, r1) =>
    match readBlob r1 with
    | .error e => .error e
    | .ok (bd, r2) => .ok ({ header := hd, body := bd }, r2)

/-- binary.Unmarshal into a RawMsg (trailing bytes tolerated). -/
def unmarshalRawMsg (bs : List Nat) : Except String RawMsg :=
  match parseRawMsg bs with
  | .error e => .error e
  | .ok (r, _) => .ok r

/-- binary.Unmarshal into a Msg. -/
def unmarshalMsg (bs : List Nat) : Except String Msg :=
  match parseMsg bs with
  | .error e => .error e
  | .ok (m, _) => .ok m

/-- binary.Unmarshal into a Handshake. -/
def unmarshalHandshake (bs : List Nat) : Except String Handshake :=
  match parseHandshake bs with
  | .error e => .error e
  | .ok (m, _) => .ok m

/-- binary.Unmarshal into a HandshakeAck. -/
def unmarshalHandshakeAck (bs : List Nat) : Except String HandshakeAck :=
  match parseHandshakeAck bs with
  | .error e => .error e
  | .ok (m, _) => .ok m

/-- Decidable equality on Except results, for concrete evaluation. -/
instance {ε α : Type} [DecidableEq ε] [DecidableEq α] : DecidableEq (Except ε α) := fun x y =>
  match x, y with
  | .ok a, .ok b =>
    match decEq a b with
    | isTrue h => isTrue (h ▸ rfl)
    | isFalse h => isFalse fun hh => h (Except.ok.inj hh)
  | .error a, .error b =>
    match decEq a b with
    | isTrue h => isTrue (h ▸ rfl)
    | isFalse h => isFalse fun hh => h (Except.error.inj hh)
  | .ok _, .error _ => isFalse fun hh => Except.noConfusion hh
  | .error _, .ok _ => isFalse fun hh => Except.noConfusion hh

/-! ## Representation invariants.
Numeric fields of the Go structs are fixed-width machine integers;
the Nat/Int embedding records the width as a predicate. -/

/-- NextHop representation bounds (32-byte key, length-prefixed fields). -/
def WFNextHop (nh : NextHop) : Prop :=
  nh.publicKey < 2 ^ 256 ∧ nh.protocol.length < 2 ^ 32 ∧ nh.endpoint.length < 2 ^ 32

instance (nh : NextHop) : Decidable (WFNextHop nh) :=
  inferInstanceAs (Decidable (_ ∧ _ ∧ _))

/-- Bounds for the optional next hop. -/
def WFOptNextHop : Option NextHop → Prop
  | none => True
  | some nh => WFNextHop nh

instance (o : Option NextHop) : Decidable (WFOptNextHop o) :=
  match o with
  | none => isTrue trivial
  | some nh => inferInstanceAs (Decidable (WFNextHop nh))

/-- Msg representation bounds: u32 flags, i64 timestamp, sliceable data. -/
def WFMsg (m : Msg) : Prop :=
  m.flags < 2 ^ 32 ∧ -(2 ^ 63) ≤ m.timestamp ∧ m.timestamp < 2 ^ 63 ∧
    m.data.length < 2 ^ 32 ∧ WFOptNextHop m.nextHop

instance (m : Msg) : Decidable (WFMsg m) :=
  inferInstanceAs (Decidable (_ ∧ _ ∧ _ ∧ _ ∧ _))

/-- Handshake representation bounds: 32-byte key. -/
def WFHandshake (hs : Handshake) : Prop := hs.clientPublicKey < 2 ^ 256

instance (hs : Handshake) : Decidable (WFHandshake hs) :=
  inferInstanceAs (Decidable (_ < _))

/-- HandshakeAck representation bounds: length-prefixed message. -/
def WFHandshakeAck (a : HandshakeAck) : Prop := a.message.length < 2 ^ 32

instance (a : HandshakeAck) : Decidable (WFHandshakeAck a) :=
  inferInstanceAs (Decidable (_ < _))

/-! ## Message protocol operations (pkg/taiga/msg/msg.go).
The Go functions draw the ephemeral scalar and the nonce from the
system randomness; here both are explicit arguments, so each theorem
quantifies over every outcome of the sampling. -/

/-- msg.go GenerateKeyPair: the sampled private key is the randomness
outcome; the public key is its X25519 image over the basepoint. -/
def GenerateKeyPair (randPriv : Nat) : Nat × Nat :=
  (randPriv, x25519 randPriv basePoint)

/-- msg.go PublicKeyFromPrivate. -/
def PublicKeyFromPrivate (privateKey : Nat) : Nat :=
  x25519 privateKey basePoint

/-- msg.go Encoder.EncryptMsg (lines 142-193). -/
def Encoder.EncryptMsg (e : Encoder) (ephemeralPrivate nonce : Nat) (m : Msg) : RawMsg :=
  let ephemeralPublic := x25519 ephemeralPrivate basePoint
  let sharedSecret := x25519 ephemeralPrivate e.nodePublicKey
  let encKey := sha256Nat sharedSecret
  let encryptedBody := aeadSeal encKey nonce (marshalMsg m)
  { header := { version := e.version, type := TypeData,
                ephemeralKey := ephemeralPublic, nonce := nonce },
    body := encryptedBody }

/-- msg.go Decoder.DecryptBody (lines 196-225). -/
def Decoder.DecryptBody (d : Decoder) (rawMsg : RawMsg) : Except String CookedMsg :=
  let sharedSecret := x25519 d.privateKey rawMsg.header.ephemeralKey
  let encKey := sha256Nat sharedSecret
  match aeadOpen encKey rawMsg.header.nonce rawMsg.body with
  | none => .error "failed to decrypt body"
  | some data =>
    match unmarshalMsg data with
    | .error _ => .error "failed to unmarshal message"
    | .ok m => .ok { header := rawMsg.header, body := m }

/-- msg.go Encoder.EncryptHandshake (lines 228-272). -/
def Encoder.EncryptHandshake (e : Encoder) (ephemeralPrivate nonce : Nat) (hs : Handshake) : RawMsg :=
  let ephemeralPublic := x25519 ephemeralPrivate basePoint
  let sharedSecret := x25519 ephemeralPrivate e.nodePublicKey
  let encKey := sha256Nat sharedSecret
  let encryptedBody := aeadSeal encKey nonce (marshalHandshake hs)
  { header := { version := e.version, type := TypeHandshake,
                ephemeralKey := ephemeralPublic, nonce := nonce },
    body := encryptedBody }

/-- msg.go Decoder.DecryptHandshake (lines 275-299). -/
def Decoder.DecryptHandshake (d : Decoder) (rawMsg : RawMsg) : Except String Handshake :=
  let sharedSecret := x25519 d.privateKey rawMsg.header.ephemeralKey
  let encKey := sha256Nat sharedSecret
  match aeadOpen encKey rawMsg.header.nonce rawMsg.body with
  | none => .error "failed to decrypt handshake"
  | some data =>
    match unmarshalHandshake data with
    | .error _ => .error "failed to unmarshal handshake"
    | .ok hs => .ok hs

/-- msg.go Encoder.EncryptHandshakeAck (lines 302-346). -/
def Encoder.EncryptHandshakeAck (e : Encoder) (ephemeralPrivate nonce : Nat) (ack : HandshakeAck) : RawMsg :=
  let ephemeralPublic := x25519 ephemeralPrivate basePoint
  let sharedSecret := x25519 ephemeralPrivate e.nodePublicKey
  let encKey := sha256Nat sharedSecret
  let encryptedBody := aeadSeal encKey nonce (marshalHandshakeAck ack)
  { header := { version := e.version, type := TypeHandshakeAck,
                ephemeralKey := ephemeralPublic, nonce := nonce },
    body := encryptedBody }

/-- msg.go Decoder.DecryptHandshakeAck (lines 349-373). -/
def Decoder.DecryptHandshakeAck (d : Decoder) (rawMsg : RawMsg) : Except String HandshakeAck :=
  let sharedSecret := x25519 d.privateKey rawMsg.header.ephemeralKey
  let encKey := sha256Nat sharedSecret
  match aeadOpen encKey rawMsg.header.nonce rawMsg.body with
  | none => .error "failed to decrypt ack"
  | some data =>
    match unmarshalHandshakeAck data with
    | .error _ => .error "failed to unmarshal ack"
    | .ok ack => .ok ack

/-! ## Node-side handler (internal/node/handler/handler.go).
Observable side effects (log lines, TUN writes, transport sends) are
reified as a list of effects; the encoder table keyed by connection is
the handler's mutable state.  Connections are identified by a Nat. -/

/-- One observable side effect of the handler or client. -/
inductive Effect
  | logError (m : String)
  | logWarn (m : String)
  | logInfo (m : String)
  | tunWrite (data : List Nat)
  | send (conn : Nat) (data : List Nat)
  deriving DecidableEq

/-- ASCII bytes of the ack message "ok" sent on successful handshake. -/
def okMsg : List Nat := [111, 107]

/-- ASCII bytes of the ack message "decrypt error". -/
def decryptErrMsg : List Nat := [100, 101, 99, 114, 121, 112, 116, 32, 101, 114, 114, 111, 114]

/-- handler.go Handler: the decoder holding the node private key and
the per-connection response-encoder table (map plus RWMutex). -/
structure Handler where
  decoder : Decoder
  connEncoders : Nat → Option Encoder

/-- handler.go NewHandler (the TUN device is an I/O capability, not
state; it appears only through tunWrite effects). -/
def NewHandler (privateKey : Nat) : Handler :=
  { decoder := NewDecoder privateKey, connEncoders := fun _ => none }

/-- handler.go Handler.sendHandshakeAck (lines 76-102): encrypt and send
an ack, or log when no client public key is available.  ackEph and
ackNonce are the randomness drawn inside EncryptHandshakeAck. -/
def Handler.sendHandshakeAck (conn : Nat) (clientPubKey : Option Nat)
    (success : Bool) (message : List Nat) (ackEph ackNonce : Nat) : List Effect :=
  match clientPubKey with
  | none => [Effect.logError "Cannot send ack - no client public key"]
  | some k =>
    let ack : HandshakeAck := { success := success, message := message }
    let rawMsg := (NewEncoder k).EncryptHandshakeAck ackEph ackNonce ack
    [Effect.send conn (marshalRawMsg rawMsg)]

/-- handler.go Handler.handleHandshake (lines 55-73): decrypt, store a
response encoder for the announced key, ack success; on decrypt failure
log and attempt an ack with no key (which only logs). -/
def Handler.handleHandshake (h : Handler) (conn : Nat) (rawMsg : RawMsg)
    (ackEph ackNonce : Nat) : Handler × List Effect :=
  match h.decoder.DecryptHandshake rawMsg with
  | .error _ =>
    (h, Effect.logError "Failed to decrypt handshake" ::
        Handler.sendHandshakeAck conn none false decryptErrMsg ackEph ackNonce)
  | .ok hs =>
    let h2 : Handler :=
      { decoder := h.decoder,
        connEncoders := fun c => if c = conn then some (NewEncoder hs.clientPublicKey)
                                 else h.connEncoders c }
    (h2, Effect.logInfo "Client registered" ::
         Handler.sendHandshakeAck conn (some hs.clientPublicKey) true okMsg ackEph ackNonce)

/-- handler.go Handler.handleData (lines 105-138): drop when the client
has not completed a handshake; decrypt; refuse non-null NextHop; write
the inner packet to the TUN. -/
def Handler.handleData (h : Handler) (conn : Nat) (rawMsg : RawMsg) : Handler × List Effect :=
  match h.connEncoders conn with
  | none => (h, [Effect.logWarn "Data from unregistered client, ignoring"])
  | some _ =>
    match h.decoder.DecryptBody rawMsg with
    | .error _ => (h, [Effect.logError "Failed to decrypt message"])
    | .ok cookedMsg =>
      match cookedMsg.body.nextHop with
      | some _ => (h, [Effect.logWarn "Multi-hop routing not implemented yet"])
      | none => (h, [Effect.tunWrite cookedMsg.body.data])

/-- handler.go Handler.HandleMessage (lines 35-52): unmarshal the wire
bytes and dispatch on the header type. -/
def Handler.HandleMessage (h : Handler) (conn : Nat) (data : List Nat)
    (ackEph ackNonce : Nat) : Handler × List Effect :=
  match unmarshalRawMsg data with
  | .error _ => (h, [Effect.logError "Failed to unmarshal message"])
  | .ok rawMsg =>
    if rawMsg.header.type = TypeHandshake then
      h.handleHandshake conn rawMsg ackEph ackNonce
    else if rawMsg.header.type = TypeData then
      h.handleData conn rawMsg
    else
      (h, [Effect.logWarn "Unknown message type"])

/-- handler.go Handler.RemoveConnection (lines 185-190). -/
def Handler.RemoveConnection (h : Handler) (conn : Nat) : Handler × List Effect :=
  ({ decoder := h.decoder,
     connEncoders := fun c => if c = conn then none else h.connEncoders c },
   [Effect.logInfo "Client disconnected"])

/-! ## Client-side processor (internal/kedr/processor). -/

/-- processor Processor.Process: write the inner packet to the TUN when
this is the final destination, do nothing otherwise; the returned
Option String is the Go error value (TUN device write errors are I/O
and abstracted as a successful write effect). -/
def Processor.Process (cookedMsg : CookedMsg) : List Effect × Option String :=
  match cookedMsg.body.nextHop with
  | none => ([Effect.tunWrite cookedMsg.body.data], none)
  | some _ => ([], none)

/-! ## Client run loop (internal/kedr, package vpn). -/

/-- vpn Client: the encoder bound to the node public key, the decoder
holding the client private key, and the derived client public key. -/
structure Client where
  encoder : Encoder
  decoder : Decoder
  clientPubKey : Nat

/-- vpn NewClient: build the client from the configured node public key
and client private key. -/
def NewClient (nodePublicKey privateKey : Nat) : Client :=
  { encoder := NewEncoder nodePublicKey,
    decoder := NewDecoder privateKey,
    clientPubKey := PublicKeyFromPrivate privateKey }

/-- vpn Client.handshake (config.go lines 197-247): send an encrypted
Handshake carrying the client public key, await exactly one receive,
require a HandshakeAck header type, decrypt, require success.
sendResult and recvResult are the transport outcomes; hsEph and hsNonce
the randomness drawn inside EncryptHandshake. -/
def Client.handshake (c : Client) (hsEph hsNonce : Nat)
    (sendResult : Option String) (recvResult : Except String (List Nat)) :
    Except String Unit :=
  let hs : Handshake := { clientPublicKey := c.clientPubKey }
  let rawMsg := c.encoder.EncryptHandshake hsEph hsNonce hs
  let _wire := marshalRawMsg rawMsg
  match sendResult with
  | some e => .error ("send handshake: " ++ e)
  | none =>
    match recvResult with
    | .error e => .error ("receive ack: " ++ e)
    | .ok ackData =>
      match unmarshalRawMsg ackData with
      | .error e => .error ("unmarshal ack: " ++ e)
      | .ok ackRaw =>
        if ackRaw.header.type ≠ TypeHandshakeAck then
          .error "expected handshake ack, got other type"
        else
          match c.decoder.DecryptHandshakeAck ackRaw with
          | .error e => .error ("decrypt ack: " ++ e)
          | .ok ack =>
            if ack.success then .ok () else .error "handshake rejected"

/-- Outcome of Client.Run: the pumps start only after the handshake. -/
inductive RunOutcome
  | pumpsStarted
  | handshakeFailed (e : String)
  deriving DecidableEq

/-- vpn Client.Run (config.go lines 176-194): perform the handshake
first; on error return without starting either pump, otherwise start
the send and receive loops. -/
def Client.Run (c : Client) (hsEph hsNonce : Nat)
    (sendResult : Option String) (recvResult : Except String (List Nat)) : RunOutcome :=
  match c.handshake hsEph hsNonce sendResult recvResult with
  | .error e => .handshakeFailed ("handshake failed: " ++ e)
  | .ok _ => .pumpsStarted

/-! ## Stream transport connection (wss server). -/

/-- Capacity of the per-connection outbound channel
(wss server: make(chan byte-slice, 256)). -/
def sendChanCapacity : Nat := 256

/-- wss Connection: closed flag and the buffered outbound queue. -/
structure Connection where
  closed : Bool
  sendQueue : List (List Nat)
  deriving DecidableEq

/-- wss new connection as created on upgrade: open, empty queue. -/
def newConnection : Connection := { closed := false, sendQueue := [] }

/-- wss Connection.Send (lines 134-148): error when closed; enqueue when
the buffered channel has room; otherwise fail immediately with a full
buffer error.  Never blocks. -/
def Connection.Send (c : Connection) (data : List Nat) : Connection × Option String :=
  if c.closed then (c, some "connection closed")
  else if c.sendQueue.length < sendChanCapacity then
    ({ closed := c.closed, sendQueue := c.sendQueue ++ [data] }, none)
  else (c, some "send buffer full")

/-! ## Codec lemmas. -/

theorem toLE_length (w v : Nat) : (toLE w v).length = w := by
  induction w generalizing v with
  | zero => rfl
  | succ w ih => simp [toLE, ih]

theorem fromLE_toLE (w v : Nat) : fromLE (toLE w v) = v % 2 ^ (8 * w) := by
  induction w generalizing v with
  | zero => simp [toLE, fromLE, Nat.mod_one]
  | succ w ih =>
    have h256 : (2 : Nat) ^ (8 * (w + 1)) = 256 * 2 ^ (8 * w) := by ring
    rw [toLE, fromLE, ih, h256, Nat.mod_mul]
    omega

theorem i64ToLE_length (t : Int) : (i64ToLE t).length = 8 := toLE_length 8 _

theorem i64FromLE_toLE (t : Int) (h1 : -(2 ^ 63) ≤ t) (h2 : t < 2 ^ 63) :
    i64FromLE (i64ToLE t) = t := by
  have hnn : (0 : Int) ≤ t.emod (2 ^ 64) := Int.emod_nonneg t (by norm_num)
  have hlt : t.emod (2 ^ 64) < 2 ^ 64 := Int.emod_lt_of_pos t (by norm_num)
  have hx : ((t.emod (2 ^ 64)).toNat : Int) = t.emod (2 ^ 64) := Int.toNat_of_nonneg hnn
  have hdef : t.emod (2 ^ 64) = t - 2 ^ 64 * (t / 2 ^ 64) := Int.emod_def t (2 ^ 64)
  unfold i64FromLE i64ToLE
  rw [fromLE_toLE]
  have hred : (t.emod (2 ^ 64)).toNat % 2 ^ (8 * 8) = (t.emod (2 ^ 64)).toNat := by
    apply Nat.mod_eq_of_lt
    omega
  rw [hred]
  split <;> omega

theorem readBytes_append (xs r : List Nat) : readBytes xs.length (xs ++ r) = .ok (xs, r) := by
  simp [readBytes, List.take_left, List.drop_left]

theorem readBytes_append' (n : Nat) (xs r : List Nat) (h : xs.length = n) :
    readBytes n (xs ++ r) = .ok (xs, r) := by
  subst h; exact readBytes_append xs r

theorem readLE_toLE (w v : Nat) (r : List Nat) :
    readLE w (toLE w v ++ r) = .ok (v % 2 ^ (8 * w), r) := by
  simp [readLE, readBytes_append' w (toLE w v) r (toLE_length w v), fromLE_toLE]

theorem readBlob_writeBlob (xs r : List Nat) (h : xs.length < 2 ^ 32) :
    readBlob (writeBlob xs ++ r) = .ok (xs, r) := by
  have h2 : xs.length < 4294967296 := by norm_num at h; exact h
  simp [writeBlob, readBlob, List.append_assoc, readLE_toLE, Nat.mod_eq_of_lt h2,
    readBytes_append]

theorem parseHandshake_marshal (hs : Handshake) (r : List Nat) (h : WFHandshake hs) :
    parseHandshake (marshalHandshake hs ++ r) = .ok (hs, r) := by
  have h2 : hs.clientPublicKey < 2 ^ (8 * 32) := by
    norm_num; norm_num [WFHandshake] at h; omega
  simp [marshalHandshake, parseHandshake, readLE_toLE]
  norm_num at h2
  rw [Nat.mod_eq_of_lt h2]

theorem parseHandshakeAck_marshal (a : HandshakeAck) (r : List Nat) (h : WFHandshakeAck a) :
    parseHandshakeAck (marshalHandshakeAck a ++ r) = .ok (a, r) := by
  cases hsu : a.success <;>
    (simp [marshalHandshakeAck, parseHandshakeAck, hsu, readByte,
       readBlob_writeBlob a.message r h];
     rw [← hsu])

theorem parseNextHop_marshal (nh : NextHop) (r : List Nat) (h : WFNextHop nh) :
    parseNextHop (marshalNextHop nh ++ r) = .ok (nh, r) := by
  obtain ⟨h1, h2, h3⟩ := h
  have h1' : nh.publicKey < 2 ^ (8 * 32) := by norm_num; norm_num at h1; omega
  simp [marshalNextHop, parseNextHop, List.append_assoc, readLE_toLE,
    readBlob_writeBlob nh.protocol _ h2,
    readBlob_writeBlob nh.endpoint _ h3]
  norm_num at h1'
  rw [Nat.mod_eq_of_lt h1']

theorem parseMsg_marshal (m : Msg) (r : List Nat) (h : WFMsg m) :
    parseMsg (marshalMsg m ++ r) = .ok (m, r) := by
  obtain ⟨h1, h2, h3, h4, h5⟩ := h
  have h1' : m.flags < 2 ^ (8 * 4) := by norm_num; norm_num at h1; omega
  norm_num at h1'
  cases hnh : m.nextHop with
  | none =>
    simp [marshalMsg, parseMsg, hnh, List.append_assoc, readLE_toLE,
      readBytes_append' 8 (i64ToLE m.timestamp) _ (i64ToLE_length m.timestamp),
      readByte, i64FromLE_toLE m.timestamp h2 h3, readBlob_writeBlob m.data r h4]
    rw [Nat.mod_eq_of_lt h1', ← hnh]
  | some nh =>
    rw [hnh] at h5
    simp [marshalMsg, parseMsg, hnh, List.append_assoc, readLE_toLE,
      readBytes_append' 8 (i64ToLE m.timestamp) _ (i64ToLE_length m.timestamp),
      readByte, i64FromLE_toLE m.timestamp h2 h3,
      parseNextHop_marshal nh _ h5, readBlob_writeBlob m.data r h4]
    rw [Nat.mod_eq_of_lt h1', ← hnh]

theorem unmarshalMsg_marshal (m : Msg) (h : WFMsg m) :
    unmarshalMsg (marshalMsg m) = .ok m := by
  have hp := parseMsg_marshal m [] h
  rw [List.append_nil] at hp
  simp [unmarshalMsg, hp]

theorem unmarshalHandshake_marshal (hs : Handshake) (h : WFHandshake hs) :
    unmarshalHandshake (marshalHandshake hs) = .ok hs := by
  have hp := parseHandshake_marshal hs [] h
  rw [List.append_nil] at hp
  simp [unmarshalHandshake, hp]

theorem unmarshalHandshakeAck_marshal (a : HandshakeAck) (h : WFHandshakeAck a) :
    unmarshalHandshakeAck (marshalHandshakeAck a) = .ok a := by
  have hp := parseHandshakeAck_marshal a [] h
  rw [List.append_nil] at hp
  simp [unmarshalHandshakeAck, hp]

/-! ## AEAD and key-exchange lemmas. -/

theorem encFrom_length (k n i : Nat) (l : List Nat) : (encFrom k n i l).length = l.length := by
  induction l generalizing i with
  | nil => rfl
  | cons b bs ih => simp [encFrom, ih]

theorem encFrom_encFrom (k n i : Nat) (l : List Nat) :
    encFrom k n i (encFrom k n i l) = l := by
  induction l generalizing i with
  | nil => rfl
  | cons b bs ih => simp [encFrom, Nat.xor_cancel_right, ih]

theorem polyTag_length (k n : Nat) (ct : List Nat) : (polyTag k n ct).length = 16 := by
  simp [polyTag]

theorem aeadOpen_aeadSeal (k n : Nat) (pt : List Nat) :
    aeadOpen k n (aeadSeal k n pt) = some pt := by
  have hct : (encFrom k n 0 pt).length = pt.length := encFrom_length k n 0 pt
  have hL : (aeadSeal k n pt).length = pt.length + 16 := by
    simp [aeadSeal, List.length_append, hct, polyTag_length]
  have hsub : pt.length + 16 - 16 = pt.length := by omega
  have htake : (aeadSeal k n pt).take pt.length = encFrom k n 0 pt := by
    simp only [aeadSeal]
    exact List.take_left' hct
  have hdrop : (aeadSeal k n pt).drop pt.length = polyTag k n (encFrom k n 0 pt) := by
    simp only [aeadSeal]
    exact List.drop_left' hct
  unfold aeadOpen
  rw [hL, if_neg (by omega), hsub, htake, hdrop, if_pos rfl, encFrom_encFrom]

/-- The shared secret agrees on both sides: ephemeral-static ECDH
commutes (x25519 is scalar multiplication in an abelian group). -/
theorem x25519_comm (p e : Nat) :
    x25519 p (x25519 e basePoint) = x25519 e (x25519 p basePoint) := by
  unfold x25519 basePoint
  rw [mul_one, mul_one, Nat.mul_mod, Nat.mod_mod_of_dvd _ dvd_rfl, ← Nat.mul_mod,
    Nat.mul_mod e, Nat.mod_mod_of_dvd _ dvd_rfl, ← Nat.mul_mod, Nat.mul_comm]

/-! ## Seal/open roundtrips of the three frame types. -/

theorem DecryptBody_EncryptMsg (p e n : Nat) (m : Msg) (hm : WFMsg m) :
    (NewDecoder p).DecryptBody ((NewEncoder (PublicKeyFromPrivate p)).EncryptMsg e n m) =
      .ok { header := ((NewEncoder (PublicKeyFromPrivate p)).EncryptMsg e n m).header,
            body := m } := by
  simp [Decoder.DecryptBody, Encoder.EncryptMsg, NewDecoder, NewEncoder,
    PublicKeyFromPrivate, x25519_comm p e, aeadOpen_aeadSeal, unmarshalMsg_marshal m hm]

theorem DecryptHandshake_EncryptHandshake (p e n : Nat) (hs : Handshake) (hh : WFHandshake hs) :
    (NewDecoder p).DecryptHandshake
      ((NewEncoder (PublicKeyFromPrivate p)).EncryptHandshake e n hs) = .ok hs := by
  simp [Decoder.DecryptHandshake, Encoder.EncryptHandshake, NewDecoder, NewEncoder,
    PublicKeyFromPrivate, x25519_comm p e, aeadOpen_aeadSeal,
    unmarshalHandshake_marshal hs hh]

theorem DecryptHandshakeAck_EncryptHandshakeAck (p e n : Nat) (ack : HandshakeAck)
    (ha : WFHandshakeAck ack) :
    (NewDecoder p).DecryptHandshakeAck
      ((NewEncoder (PublicKeyFromPrivate p)).EncryptHandshakeAck e n ack) = .ok ack := by
  simp [Decoder.DecryptHandshakeAck, Encoder.EncryptHandshakeAck, NewDecoder, NewEncoder,
    PublicKeyFromPrivate, x25519_comm p e, aeadOpen_aeadSeal,
    unmarshalHandshakeAck_marshal ack ha]

/-! ## Claim theorems. -/

/-- C1: For every private key p with public key P derived over the
basepoint, every well-represented body of each frame type (Msg,
Handshake, HandshakeAck) and every choice of the encoder's ephemeral
scalar and nonce, decrypting with a Decoder holding p the RawMsg
produced by an Encoder bound to P succeeds and returns a body equal to
the original. -/
theorem seal_open_roundtrip (p e n : Nat) (m : Msg) (hs : Handshake) (ack : HandshakeAck)
    (hm : WFMsg m) (hh : WFHandshake hs) (ha : WFHandshakeAck ack) :
    (∃ ck, (NewDecoder p).DecryptBody
        ((NewEncoder (PublicKeyFromPrivate p)).EncryptMsg e n m) = .ok ck ∧ ck.body = m) ∧
    (NewDecoder p).DecryptHandshake
        ((NewEncoder (PublicKeyFromPrivate p)).EncryptHandshake e n hs) = .ok hs ∧
    (NewDecoder p).DecryptHandshakeAck
        ((NewEncoder (PublicKeyFromPrivate p)).EncryptHandshakeAck e n ack) = .ok ack :=
  ⟨⟨_, DecryptBody_EncryptMsg p e n m hm, rfl⟩,
   DecryptHandshake_EncryptHandshake p e n hs hh,
   DecryptHandshakeAck_EncryptHandshakeAck p e n ack ha⟩

/-- Witness for C1 at the spec's concrete scenario: private key 3,
ephemeral 5, nonce 7, data payload AA BB CC. -/
theorem seal_open_roundtrip_check :
    WFMsg { flags := 0, timestamp := 0, nextHop := none, data := [170, 187, 204] } ∧
    WFHandshake { clientPublicKey := 9 } ∧
    WFHandshakeAck { success := true, message := [111, 107] } ∧
    ((∃ ck, (NewDecoder 3).DecryptBody
        ((NewEncoder (PublicKeyFromPrivate 3)).EncryptMsg 5 7
          { flags := 0, timestamp := 0, nextHop := none, data := [170, 187, 204] }) = .ok ck ∧
        ck.body = { flags := 0, timestamp := 0, nextHop := none, data := [170, 187, 204] }) ∧
     (NewDecoder 3).DecryptHandshake
        ((NewEncoder (PublicKeyFromPrivate 3)).EncryptHandshake 5 7
          { clientPublicKey := 9 }) = .ok { clientPublicKey := 9 } ∧
     (NewDecoder 3).DecryptHandshakeAck
        ((NewEncoder (PublicKeyFromPrivate 3)).EncryptHandshakeAck 5 7
          { success := true, message := [111, 107] }) =
        .ok { success := true, message := [111, 107] }) :=
  ⟨by decide, by decide, by decide,
   seal_open_roundtrip 3 5 7 _ _ _ (by decide) (by decide) (by decide)⟩

/-- C2: on a connection with no registered encoder, an incoming Data
frame is dropped with the defined warning: no TUN write occurs and the
handler state is unchanged. -/
theorem data_before_handshake_dropped (h : Handler) (conn : Nat) (raw : RawMsg)
    (hreg : h.connEncoders conn = none) :
    h.handleData conn raw =
      (h, [Effect.logWarn "Data from unregistered client, ignoring"]) := by
  simp [Handler.handleData, hreg]

/-- Witness for C2: a fresh handler has no encoder for connection 0, and
a valid Data frame sent there is dropped with the warning only. -/
theorem data_before_handshake_dropped_check :
    (NewHandler 3).connEncoders 0 = none ∧
    (NewHandler 3).handleData 0
        ((NewEncoder (PublicKeyFromPrivate 3)).EncryptMsg 5 7
          { flags := 0, timestamp := 0, nextHop := none, data := [170, 187, 204] }) =
      (NewHandler 3, [Effect.logWarn "Data from unregistered client, ignoring"]) :=
  ⟨rfl, data_before_handshake_dropped (NewHandler 3) 0 _ rfl⟩

/-- C4: dispatch of an arbitrary inbound byte string is total: it either
fails to unmarshal (frame dropped with a logged error, state unchanged),
or dispatches the parsed frame by type, with unknown types dropped with
a warning; every input falls into one of these defined outcomes. -/
theorem handleMessage_total_dispatch (h : Handler) (conn : Nat) (data : List Nat)
    (ae an : Nat) :
    (∃ e, unmarshalRawMsg data = .error e ∧
       h.HandleMessage conn data ae an =
         (h, [Effect.logError "Failed to unmarshal message"])) ∨
    (∃ raw, unmarshalRawMsg data = .ok raw ∧
       ((raw.header.type = TypeHandshake ∧
          h.HandleMessage conn data ae an = h.handleHandshake conn raw ae an) ∨
        (raw.header.type ≠ TypeHandshake ∧ raw.header.type = TypeData ∧
          h.HandleMessage conn data ae an = h.handleData conn raw) ∨
        (raw.header.type ≠ TypeHandshake ∧ raw.header.type ≠ TypeData ∧
          h.HandleMessage conn data ae an =
            (h, [Effect.logWarn "Unknown message type"])))) := by
  cases hu : unmarshalRawMsg data with
  | error e => exact Or.inl ⟨e, rfl, by simp [Handler.HandleMessage, hu]⟩
  | ok raw =>
    refine Or.inr ⟨raw, rfl, ?_⟩
    by_cases t1 : raw.header.type = TypeHandshake
    · exact Or.inl ⟨t1, by simp [Handler.HandleMessage, hu, t1]⟩
    · by_cases t2 : raw.header.type = TypeData
      · exact Or.inr (Or.inl ⟨t1, t2, by
          simp [Handler.HandleMessage, hu, t1, t2, TypeData, TypeHandshake]⟩)
      · exact Or.inr (Or.inr ⟨t1, t2, by simp [Handler.HandleMessage, hu, t1, t2]⟩)

/-- C5: a Handshake frame that decrypts successfully stores a response
encoder bound to the announced client public key for that connection
(overwriting any previous entry, for any prior state), and sends back an
encrypted HandshakeAck with success = true and message "ok". -/
theorem handshake_registers_and_acks (h : Handler) (conn : Nat) (raw : RawMsg)
    (ae an : Nat) (hs : Handshake)
    (hd : h.decoder.DecryptHandshake raw = .ok hs) :
    h.handleHandshake conn raw ae an =
      ({ decoder := h.decoder,
         connEncoders := fun c => if c = conn then some (NewEncoder hs.clientPublicKey)
                                  else h.connEncoders c },
       [Effect.logInfo "Client registered",
        Effect.send conn (marshalRawMsg
          ((NewEncoder hs.clientPublicKey).EncryptHandshakeAck ae an
            { success := true, message := okMsg }))]) := by
  simp [Handler.handleHandshake, hd, Handler.sendHandshakeAck]

/-- Witness for C5: a concrete valid handshake frame registers key 9 on
connection 0 of a fresh handler and produces the ack send effect. -/
theorem handshake_registers_and_acks_check :
    (NewHandler 3).decoder.DecryptHandshake
        ((NewEncoder (PublicKeyFromPrivate 3)).EncryptHandshake 5 7
          { clientPublicKey := 9 }) = .ok { clientPublicKey := 9 } ∧
    (NewHandler 3).handleHandshake 0
        ((NewEncoder (PublicKeyFromPrivate 3)).EncryptHandshake 5 7
          { clientPublicKey := 9 }) 11 13 =
      ({ decoder := (NewHandler 3).decoder,
         connEncoders := fun c => if c = 0 then some (NewEncoder 9)
                                  else (NewHandler 3).connEncoders c },
       [Effect.logInfo "Client registered",
        Effect.send 0 (marshalRawMsg
          ((NewEncoder 9).EncryptHandshakeAck 11 13
            { success := true, message := okMsg }))]) :=
  ⟨by decide,
   handshake_registers_and_acks (NewHandler 3) 0 _ 11 13 { clientPublicKey := 9 } (by decide)⟩

/-- C6: a Handshake frame whose decryption fails leaves the encoder
table unchanged and produces only log lines: no ack frame is sent on
the connection (there is no client key to encrypt to). -/
theorem handshake_decrypt_fail_silent (h : Handler) (conn : Nat) (raw : RawMsg)
    (ae an : Nat) (e : String) (hd : h.decoder.DecryptHandshake raw = .error e) :
    h.handleHandshake conn raw ae an =
      (h, [Effect.logError "Failed to decrypt handshake",
           Effect.logError "Cannot send ack - no client public key"]) := by
  simp [Handler.handleHandshake, hd, Handler.sendHandshakeAck]

/-- Witness for C6: a frame with an empty body fails AEAD opening and is
dropped with two log lines and no send effect, state unchanged. -/
theorem handshake_decrypt_fail_silent_check :
    (NewHandler 3).decoder.DecryptHandshake
        { header := { version := Version1, type := TypeHandshake,
                      ephemeralKey := 0, nonce := 0 }, body := [] } =
      .error "failed to decrypt handshake" ∧
    (NewHandler 3).handleHandshake 0
        { header := { version := Version1, type := TypeHandshake,
                      ephemeralKey := 0, nonce := 0 }, body := [] } 11 13 =
      (NewHandler 3,
       [Effect.logError "Failed to decrypt handshake",
        Effect.logError "Cannot send ack - no client public key"]) :=
  ⟨by decide,
   handshake_decrypt_fail_silent (NewHandler 3) 0 _ 11 13
     "failed to decrypt handshake" (by decide)⟩

/-- A frame sealed under an Encoder whose version field is the bytes of
"bogus" rather than "taiga_v1_alpha": the header carries an unknown
version but the cryptography is valid. -/
def bogusVersionFrame : RawMsg :=
  ({ nodePublicKey := PublicKeyFromPrivate 3,
     version := [98, 111, 103, 117, 115] } : Encoder).EncryptHandshake 5 7
    { clientPublicKey := 9 }

/-- A Data frame sealed under the same unknown-version encoder. -/
def bogusVersionDataFrame : RawMsg :=
  ({ nodePublicKey := PublicKeyFromPrivate 3,
     version := [98, 111, 103, 117, 115] } : Encoder).EncryptMsg 5 7
    { flags := 0, timestamp := 0, nextHop := none, data := [170] }

set_option maxRecDepth 8192 in
/-- C3 is violated by the code: the decrypt operations never inspect the
header version field (the Decoder's own Version field, set by
NewDecoder, is never consulted), so a frame carrying an unknown version
decrypts successfully instead of being refused. -/
theorem decoder_ignores_version :
    bogusVersionFrame.header.version ≠ Version1 ∧
    (NewDecoder 3).DecryptHandshake bogusVersionFrame = .ok { clientPublicKey := 9 } ∧
    bogusVersionDataFrame.header.version ≠ Version1 ∧
    (NewDecoder 3).DecryptBody bogusVersionDataFrame =
      .ok { header := bogusVersionDataFrame.header,
            body := { flags := 0, timestamp := 0, nextHop := none, data := [170] } } := by
  refine ⟨by decide, by decide, by decide, by decide⟩

/-- C7 counterexample: the client-side processor, given a decrypted body
with a non-null next hop, returns a nil error (and performs no TUN
write) — it does not return the claimed not-implemented error. -/
theorem process_nexthop_returns_no_error :
    Processor.Process
      { header := { version := Version1, type := TypeData, ephemeralKey := 0, nonce := 0 },
        body := { flags := 0, timestamp := 0,
                  nextHop := some { publicKey := 4, protocol := [119], endpoint := [101] },
                  data := [1, 2] } } = ([], none) := rfl

/-- C7 amended: a decrypted Data body with non-null NextHop causes no
TUN write on either side; the node-side handler drops the frame with
the not-implemented warning (returning no error to the pump, which has
no error channel), and the client-side processor silently returns a nil
error. -/
theorem nexthop_drops_without_error :
    (∀ (ck : CookedMsg) (nh : NextHop), ck.body.nextHop = some nh →
       Processor.Process ck = ([], none)) ∧
    (∀ (h : Handler) (conn : Nat) (raw : RawMsg) (enc : Encoder) (ck : CookedMsg)
       (nh : NextHop),
       h.connEncoders conn = some enc →
       h.decoder.DecryptBody raw = .ok ck →
       ck.body.nextHop = some nh →
       h.handleData conn raw =
         (h, [Effect.logWarn "Multi-hop routing not implemented yet"])) := by
  constructor
  · intro ck nh hnh
    simp [Processor.Process, hnh]
  · intro h conn raw enc ck nh hreg hd hnh
    simp [Handler.handleData, hreg, hd, hnh]

/-- Example handler state with a registered client on connection 0. -/
def nexthopHandlerExample : Handler :=
  { decoder := NewDecoder 3,
    connEncoders := fun c => if c = 0 then some (NewEncoder 9) else none }

/-- Example Msg body carrying a non-null next hop. -/
def nexthopMsgExample : Msg :=
  { flags := 0, timestamp := 0,
    nextHop := some { publicKey := 4, protocol := [119], endpoint := [101] },
    data := [1, 2] }

/-- The example body sealed for the node holding private key 3. -/
def nexthopFrameExample : RawMsg :=
  (NewEncoder (PublicKeyFromPrivate 3)).EncryptMsg 5 7 nexthopMsgExample

/-- The decrypted form of the example frame. -/
def nexthopCookedExample : CookedMsg :=
  { header := nexthopFrameExample.header, body := nexthopMsgExample }

set_option maxRecDepth 8192 in
/-- Witness for the amended C7: on the concrete next-hop frame the
client processor returns nil with no effects, and the registered-client
node handler drops it with the warning only. -/
theorem nexthop_drops_without_error_check :
    Processor.Process nexthopCookedExample = ([], none) ∧
    nexthopHandlerExample.handleData 0 nexthopFrameExample =
      (nexthopHandlerExample,
       [Effect.logWarn "Multi-hop routing not implemented yet"]) :=
  ⟨nexthop_drops_without_error.1 nexthopCookedExample
     { publicKey := 4, protocol := [119], endpoint := [101] } rfl,
   nexthop_drops_without_error.2 nexthopHandlerExample 0 nexthopFrameExample
     (NewEncoder 9) nexthopCookedExample
     { publicKey := 4, protocol := [119], endpoint := [101] }
     rfl (by decide) rfl⟩

set_option maxRecDepth 8192 in
/-- C8: the client's Run starts the pumps if and only if the handshake
gate passes: the send succeeded, the single received frame unmarshals,
its header type is HandshakeAck, it decrypts under the client's
decoder, and the ack carries success = true; otherwise Run returns a
handshake error with no pump started. -/
theorem client_run_gate (c : Client) (hsEph hsNonce : Nat)
    (sendResult : Option String) (recvResult : Except String (List Nat)) :
    c.Run hsEph hsNonce sendResult recvResult = .pumpsStarted ↔
      (sendResult = none ∧
       ∃ ackData ackRaw ack,
         recvResult = .ok ackData ∧
         unmarshalRawMsg ackData = .ok ackRaw ∧
         ackRaw.header.type = TypeHandshakeAck ∧
         c.decoder.DecryptHandshakeAck ackRaw = .ok ack ∧
         ack.success = true) := by
  unfold Client.Run Client.handshake
  cases sendResult with
  | some s => simp
  | none =>
    cases recvResult with
    | error e => simp
    | ok d =>
      cases hu : unmarshalRawMsg d with
      | error e => simp [hu]
      | ok a =>
        by_cases ht : a.header.type = TypeHandshakeAck
        · cases hdec : c.decoder.DecryptHandshakeAck a with
          | error e => simp [hu, ht, hdec]
          | ok k =>
            cases hk : k.success with
            | false => simp [hu, ht, hdec, hk]
            | true => simp [hu, ht, hdec, hk]
        · simp [hu, ht]

/-- A valid encrypted HandshakeAck for the client holding private key 3. -/
def ackFrameExample : RawMsg :=
  (NewEncoder (PublicKeyFromPrivate 3)).EncryptHandshakeAck 11 13
    { success := true, message := okMsg }

set_option maxRecDepth 8192 in
/-- Witness for C8: on a successful send and a valid success ack, the
client run starts the pumps. -/
theorem client_run_gate_check :
    (NewClient (PublicKeyFromPrivate 4) 3).Run 5 7 none
      (.ok (marshalRawMsg ackFrameExample)) = .pumpsStarted :=
  (client_run_gate (NewClient (PublicKeyFromPrivate 4) 3) 5 7 none
      (.ok (marshalRawMsg ackFrameExample))).mpr
    ⟨rfl, marshalRawMsg ackFrameExample, ackFrameExample,
     { success := true, message := okMsg },
     rfl, by decide, by decide, by decide, rfl⟩

/-- C9: stream connections have a 256-frame outbound queue; Send on a
closed connection or a full queue returns an error immediately with the
connection state (and queue) unchanged — the frame is dropped, the
caller is never blocked. -/
theorem send_fails_without_blocking :
    sendChanCapacity = 256 ∧
    ∀ (c : Connection) (data : List Nat),
      c.closed = true ∨ sendChanCapacity ≤ c.sendQueue.length →
      ∃ err, c.Send data = (c, some err) := by
  refine ⟨rfl, ?_⟩
  intro c data hcase
  by_cases hc : c.closed
  · exact ⟨"connection closed", by simp [Connection.Send, hc]⟩
  · have hq : sendChanCapacity ≤ c.sendQueue.length := by
      rcases hcase with hcl | hq
      · exact absurd hcl hc
      · exact hq
    refine ⟨"send buffer full", ?_⟩
    unfold Connection.Send
    rw [if_neg hc, if_neg (by omega)]

/-- Witness for C9: Send on a connection whose queue already holds 256
frames fails and leaves the connection unchanged. -/
theorem send_fails_without_blocking_check :
    ∃ err, Connection.Send { closed := false, sendQueue := List.replicate 256 [] } [5] =
      ({ closed := false, sendQueue := List.replicate 256 [] }, some err) :=
  send_fails_without_blocking.2
    { closed := false, sendQueue := List.replicate 256 [] } [5]
    (Or.inr (by rw [List.length_replicate]; exact Nat.le_refl 256))

/-- C10: for every outcome of the random sampling, GenerateKeyPair
returns a pair whose public half is PublicKeyFromPrivate of its private
half: the key-generation CLI always prints consistent pairs. -/
theorem generate_keypair_consistent (r : Nat) :
    (GenerateKeyPair r).2 = PublicKeyFromPrivate (GenerateKeyPair r).1 := rfl

end Seras
